import Mathlib

/-!
# VictoriaMetrics / Prometheus scaler adapter (`smAdapter.go`)

A shallow embedding of `VMAdapter.ExecuteVictoriaQuery` and the properties of
its result-extraction logic.

The Go function talks to the outside world through library calls
(`time.Now`, `http.NewRequestWithContext`, `httpClient.Do`, `io.ReadAll`,
`json.Unmarshal`, `strconv.ParseFloat`).  Their results are supplied by an
environment record `Env`; every theorem quantifies over all environments.
Pure library helpers whose behaviour is fixed (`url.QueryEscape`, the `%d` and
`%a` verbs of `fmt`, `math.IsInf`) are written out.
-/

namespace VMScaler

/-! ## Values -/

/-- Go `error` values, identified by the text of `Error()`. -/
structure GoError where
  msg : String
  deriving DecidableEq, Repr

/-- An IEEE-754 binary64 number (`float64`), kept as its 64-bit pattern. -/
structure Float64 where
  bits : Nat
  deriving DecidableEq, Repr

namespace Float64

/-- Sign bit (bit 63). -/
def signBit (f : Float64) : Nat := f.bits / 2 ^ 63 % 2

/-- Biased exponent (bits 52..62). -/
def expField (f : Float64) : Nat := f.bits / 2 ^ 52 % 2 ^ 11

/-- Fraction (bits 0..51). -/
def fracField (f : Float64) : Nat := f.bits % 2 ^ 52

/-- The constant `0`. -/
def zero : Float64 := ⟨0⟩

/-- The constant `-1`. -/
def negOne : Float64 := ⟨0xBFF0000000000000⟩

/-- Positive infinity, `math.Inf(1)`. -/
def posInf : Float64 := ⟨0x7FF0000000000000⟩

/-- Negative infinity, `math.Inf(-1)`. -/
def negInf : Float64 := ⟨0xFFF0000000000000⟩

/-- The quiet NaN Go produces, `math.NaN()`. -/
def nan : Float64 := ⟨0x7FF8000000000001⟩

/-- The number `1.5`. -/
def onePointFive : Float64 := ⟨0x3FF8000000000000⟩

/-- Is the value `+Inf`, that is `f > math.MaxFloat64`. -/
def isPosInf (f : Float64) : Bool :=
  f.signBit == 0 && f.expField == 2047 && f.fracField == 0

/-- Is the value `-Inf`, that is `f < -math.MaxFloat64`. -/
def isNegInf (f : Float64) : Bool :=
  f.signBit == 1 && f.expField == 2047 && f.fracField == 0

/-- Same test as `math.IsNaN`. -/
def isNaN (f : Float64) : Bool :=
  f.expField == 2047 && f.fracField != 0

/-- A finite number: neither an infinity nor a NaN. -/
def isFinite (f : Float64) : Bool := f.expField != 2047

end Float64

/-- Go `math.IsInf(f, sign)`:
`sign >= 0 && f > MaxFloat64 || sign <= 0 && f < -MaxFloat64`. -/
def IsInf (f : Float64) (sign : Int) : Bool :=
  (decide (sign ≥ 0) && f.isPosInf) || (decide (sign ≤ 0) && f.isNegInf)

/-- What `encoding/json` stores in an `interface{}`: `nil` for JSON null,
`bool`, `float64`, `string`, `[]interface{}` and `map[string]interface{}`. -/
inductive JSONValue where
  | null
  | bool (b : Bool)
  | number (f : Float64)
  | string (s : String)
  | array (xs : List JSONValue)
  | object (kvs : List (String × JSONValue))

/-- Name of the dynamic type of an `interface{}` as the runtime prints it. -/
def JSONValue.goTypeName : JSONValue → String
  | .null => "nil"
  | .bool _ => "bool"
  | .number _ => "float64"
  | .string _ => "string"
  | .array _ => "[]interface \x7b\x7d"
  | .object _ => "map[string]interface \x7b\x7d"

/-- One element of `promQueryResult.Data.Result`. -/
structure promResultEntry where
  Metric : Unit := ()
  Value : List JSONValue

/-- The `Data` member of `promQueryResult`. -/
structure promData where
  ResultType : String
  Result : List promResultEntry

/-- The decoded response envelope. -/
structure promQueryResult where
  Status : String
  Data : promData

/-- The adapter's immutable configuration (logger and HTTP client live in `Env`). -/
structure VMAdapter where
  serverAddress : String
  isPrometheus : Bool

/-- Constructor of the adapter; no validation of the address. -/
def NewVMStorageAdapter (serverAddress : String) (isPrometheus : Bool) : VMAdapter :=
  { serverAddress := serverAddress, isPrometheus := isPrometheus }

/-! ## The outside world -/

/-- An outgoing HTTP request. -/
structure Request where
  method : String
  url : String
  header : List (String × String)

/-- An HTTP response; `Body` is what `io.ReadAll(r.Body)` yields. -/
structure Response where
  StatusCode : Int
  Body : Except GoError String

/-- Results of the library calls the function makes. -/
structure Env where
  /-- The text `time.Now().UTC().Format(time.RFC3339)`. -/
  now : String
  /-- The call `http.NewRequestWithContext(ctx, method, url, nil)`. -/
  newRequestWithContext : String → String → Except GoError Request
  /-- The call `a.httpClient.Do(req)`. -/
  httpDo : Request → Except GoError Response
  /-- The call `json.Unmarshal(b, &result)`. -/
  jsonUnmarshal : String → Except GoError promQueryResult
  /-- The call `strconv.ParseFloat(str, 64)`: Go returns a value and an error. -/
  parseFloat : String → Float64 × Option GoError
  /-- The verb `%f` of `fmt` on a number that is not an infinity. -/
  formatFloat : Float64 → String

/-- Observable side effects: error-level log records and lines on stdout. -/
inductive Effect where
  | logError (err : GoError) (msg : String) (keysAndValues : List (String × String))
  | println (xs : List promResultEntry)

/-- How a call ends: it returns `(float64, error)` or the goroutine panics. -/
inductive Outcome where
  | ret (value : Float64) (err : Option GoError)
  | panic (msg : String)
  deriving DecidableEq, Repr

/-- A finished call: its outcome and the effects it produced on the way. -/
structure Run where
  outcome : Outcome
  effects : List Effect

/-! ## Pure library helpers -/

/-- UTF-8 bytes of a character. -/
def utf8Bytes (c : Char) : List Nat :=
  let n := c.toNat
  if n < 0x80 then [n]
  else if n < 0x800 then [0xC0 + n / 64, 0x80 + n % 64]
  else if n < 0x10000 then [0xE0 + n / 4096, 0x80 + n / 64 % 64, 0x80 + n % 64]
  else [0xF0 + n / 262144, 0x80 + n / 4096 % 64, 0x80 + n / 64 % 64, 0x80 + n % 64]

/-- Go `url.shouldEscape(c, encodeQueryComponent)`: only ASCII letters,
digits and `-`, `_`, `.`, `~` stay as they are. -/
def shouldEscape (c : Nat) : Bool :=
  if (97 ≤ c ∧ c ≤ 122) ∨ (65 ≤ c ∧ c ≤ 90) ∨ (48 ≤ c ∧ c ≤ 57) then false
  else if c = 45 ∨ c = 95 ∨ c = 46 ∨ c = 126 then false
  else true

/-- Digit `i` of `"0123456789ABCDEF"`. -/
def upperhex (i : Nat) : Char :=
  if i < 10 then Char.ofNat (48 + i) else Char.ofNat (55 + i)

/-- Escaping of one byte by `url.escape` in query-component mode. -/
def escapeByte (c : Nat) : List Char :=
  if c = 32 then ['+']
  else if shouldEscape c then ['%', upperhex (c / 16), upperhex (c % 16)]
  else [Char.ofNat c]

/-- Go `url.QueryEscape`. -/
def QueryEscape (s : String) : String :=
  String.mk ((s.data.flatMap utf8Bytes).flatMap escapeByte)

/-- Verb `%d` of `fmt` on an `int`. -/
def sprintD (n : Int) : String := toString n

/-- What `fmt` prints for a verb that does not apply to a string operand:
`%!verb(string=value)`. -/
def badVerbString (verb : Char) (s : String) : String :=
  "%!" ++ String.singleton verb ++ "(string=" ++ s ++ ")"

/-- Verb `%f` of `fmt` on a `float64`; infinities print as `+Inf` and `-Inf`. -/
def sprintF (env : Env) (v : Float64) : String :=
  if v.isPosInf then "+Inf"
  else if v.isNegInf then "-Inf"
  else env.formatFloat v

/-- Go `req.Header.Add` for each entry of `customHeaders`, in iteration order. -/
def addHeaders (req : Request) (customHeaders : List (String × String)) : Request :=
  customHeaders.foldl (fun r h => { r with header := r.header ++ [h] }) req

/-! ## `ExecuteVictoriaQuery` -/

/-- Lines 49-57: the URL of the instant query at timestamp `t`. -/
def requestURL (a : VMAdapter) (query : String) (accountID : Int) (t : String) : String :=
  let queryEscaped := QueryEscape query
  let accID := sprintD accountID
  if a.isPrometheus then
    a.serverAddress ++ "/api/v1/query?query=" ++ queryEscaped ++ "&time=" ++ t
  else
    a.serverAddress ++ "/select/" ++ accID ++ "/prometheus/api/v1/query?query="
      ++ queryEscaped ++ "&time=" ++ t

/-- Lines 59-77: build the request, add the headers, send it and read the
body.  Yields the status code and the body, or the first error met. -/
def exchange (env : Env) (a : VMAdapter) (query : String)
    (customHeaders : List (String × String)) (accountID : Int) :
    Except GoError (Int × String) :=
  match env.newRequestWithContext "GET" (requestURL a query accountID env.now) with
  | .error err => .error err
  | .ok req =>
    match env.httpDo (addHeaders req customHeaders) with
    | .error err => .error err
    | .ok r =>
      match r.Body with
      | .error err => .error err
      | .ok b => .ok (r.StatusCode, b)

/-- Lines 124-133: the check for an infinite value and the final return. -/
def finish (env : Env) (ignoreNullValues : Bool) (v : Float64) : Run :=
  if IsInf v 0 then
    if ignoreNullValues then ⟨.ret Float64.zero none, []⟩
    else
      let err : GoError := ⟨"promtheus query returns " ++ sprintF env v⟩
      ⟨.ret Float64.negOne (some err), [.logError err "Error converting prometheus value" []]⟩
  else ⟨.ret v none, []⟩

/-- Lines 91-133: extraction of the scalar from the decoded envelope. -/
def extractValue (env : Env) (query : String) (ignoreNullValues : Bool)
    (metricName : String) (result : promQueryResult) : Run :=
  match result.Data.Result with
  | [] =>
    -- len(result.Data.Result) == 0
    if ignoreNullValues then ⟨.ret Float64.zero none, []⟩
    else ⟨.ret Float64.negOne (some ⟨"prometheus metrics " ++ badVerbString 'a' metricName
      ++ " target may be lost, the result is empty"⟩), []⟩
  | r0 :: r1 :: rs =>
    -- len(result.Data.Result) > 1
    ⟨.ret Float64.negOne (some ⟨"prometheus query " ++ badVerbString 'a' query
      ++ " returned multiple elements"⟩), [.println (r0 :: r1 :: rs)]⟩
  | [r0] =>
    match r0.Value with
    | [] =>
      -- valueLen == 0
      if ignoreNullValues then ⟨.ret Float64.zero none, []⟩
      else ⟨.ret Float64.negOne (some ⟨"prometheus metrics " ++ badVerbString 'a' metricName
        ++ " target may be lost, the value list is empty"⟩), []⟩
    | [_] =>
      -- valueLen < 2
      ⟨.ret Float64.negOne (some ⟨"prometheus query " ++ badVerbString 'a' query
        ++ " didn\x27t return enough values"⟩), []⟩
    | _ :: val :: _ =>
      -- val := result.Data.Result[0].Value[1]
      match val with
      | .null =>
        -- val == nil: v keeps its initial value -1
        finish env ignoreNullValues Float64.negOne
      | .string str =>
        match env.parseFloat str with
        | (_, some err) =>
          ⟨.ret Float64.negOne (some err),
            [.logError err "Error converting prometheus value" [("prometheus_value", str)]]⟩
        | (v, none) => finish env ignoreNullValues v
      | other =>
        -- val.(string) on a value of another dynamic type
        ⟨.panic ("interface conversion: interface \x7b\x7d is " ++ other.goTypeName
          ++ ", not string"), []⟩

/-- Lines 79-133: what the function does with a response that was read. -/
def processResponse (env : Env) (query : String) (ignoreNullValues : Bool)
    (metricName : String) (statusCode : Int) (b : String) : Run :=
  if !(decide (statusCode ≥ 200) && decide (statusCode ≤ 299)) then
    let err : GoError := ⟨"prometheus query api returned error. status: " ++ sprintD statusCode
      ++ " response: " ++ badVerbString 'a' b⟩
    ⟨.ret Float64.negOne (some err), [.logError err "prometheus query api returned error" []]⟩
  else
    match env.jsonUnmarshal b with
    | .error err => ⟨.ret Float64.negOne (some err), []⟩
    | .ok result => extractValue env query ignoreNullValues metricName result

/-- The method `(*VMAdapter).ExecuteVictoriaQuery`. -/
def ExecuteVictoriaQuery (env : Env) (a : VMAdapter) (query : String)
    (customHeaders : List (String × String)) (ignoreNullValues : Bool)
    (metricName : String) (accountID : Int) : Run :=
  match exchange env a query customHeaders accountID with
  | .error err => ⟨.ret Float64.negOne (some err), []⟩
  | .ok (statusCode, b) => processResponse env query ignoreNullValues metricName statusCode b

/-! ## Statement vocabulary -/

/-- The text `sub` occurs in `s`. -/
def Contains (s sub : String) : Prop := ∃ pre post : String, s = pre ++ sub ++ post

/-- The exchange delivered a response with a 2xx status whose body
`json.Unmarshal` decoded, without error, to `result`. -/
def Answers2xx (env : Env) (a : VMAdapter) (query : String)
    (customHeaders : List (String × String)) (accountID : Int)
    (result : promQueryResult) : Prop :=
  ∃ (statusCode : Int) (body : String),
    exchange env a query customHeaders accountID = .ok (statusCode, body) ∧
    200 ≤ statusCode ∧ statusCode ≤ 299 ∧ env.jsonUnmarshal body = .ok result

/-- The dynamic type is `string` or the value is `nil`. -/
def JSONValue.isStringOrNull : JSONValue → Bool
  | .null => true
  | .string _ => true
  | _ => false

/-- Every result entry that has a second value element has a string or JSON
null there, as in the envelope `"value": [number, string|null]`. -/
def valueStringOrNull (r : promQueryResult) : Bool :=
  r.Data.Result.all fun e =>
    match e.Value with
    | _ :: x :: _ => x.isStringOrNull
    | _ => true

/-- The three absence conditions on a decoded envelope: no result entry; one
entry with an empty value pair; one entry whose value string (second element
of the pair) parses without error to an infinity. -/
def AbsentIn (env : Env) (r : promQueryResult) : Prop :=
  r.Data.Result = [] ∨
  ∃ entry : promResultEntry, r.Data.Result = [entry] ∧
    (entry.Value = [] ∨
     ∃ (ts : JSONValue) (s : String) (rest : List JSONValue) (f : Float64),
       entry.Value = ts :: .string s :: rest ∧ env.parseFloat s = (f, none) ∧
       IsInf f 0 = true)

/-- The response is a 2xx envelope showing one of the absence conditions. -/
def AbsenceCase (env : Env) (a : VMAdapter) (query : String)
    (customHeaders : List (String × String)) (accountID : Int) : Prop :=
  ∃ r : promQueryResult, Answers2xx env a query customHeaders accountID r ∧ AbsentIn env r

/-! ## A concrete environment for evaluation -/

/-- A table of `strconv.ParseFloat(s, 64)` on a few literals, used only to
evaluate the function on concrete responses. -/
def sampleParseFloat (s : String) : Float64 × Option GoError :=
  if s = "1.5" then (Float64.onePointFive, none)
  else if s = "0" then (Float64.zero, none)
  else if s = "-1" then (Float64.negOne, none)
  else if s = "+Inf" then (Float64.posInf, none)
  else if s = "-Inf" then (Float64.negInf, none)
  else if s = "NaN" then (Float64.nan, none)
  else if s = "1e999" then
    (Float64.posInf, some ⟨"strconv.ParseFloat: parsing \"1e999\": value out of range"⟩)
  else (Float64.zero, some ⟨"strconv.ParseFloat: parsing \"" ++ s ++ "\": invalid syntax"⟩)

/-- A backend that answers every request with status `status` and body
`body`, the body decoding to `decoded`. -/
def sampleEnv (status : Int) (body : String) (decoded : Except GoError promQueryResult) : Env :=
  { now := "2024-05-01T12:00:00Z"
    newRequestWithContext := fun method url => .ok ⟨method, url, []⟩
    httpDo := fun _ => .ok ⟨status, .ok body⟩
    jsonUnmarshal := fun _ => decoded
    parseFloat := sampleParseFloat
    formatFloat := fun _ => "" }

/-- An envelope of type `vector` with the given result entries. -/
def envelope (entries : List promResultEntry) : promQueryResult :=
  { Status := "success", Data := { ResultType := "vector", Result := entries } }

/-- A result entry with value pair `[1700000000, x]`. -/
def entryWith (x : JSONValue) : promResultEntry :=
  { Value := [.number ⟨0x41D954FC40000000⟩, x] }

/-- The adapter used in the evaluations. -/
def sampleAdapter : VMAdapter := NewVMStorageAdapter "http://vm:8428" true

/-- What a caller can observe of the result proper: the returned number and
whether the error is nil; nothing when the call panics. -/
def Outcome.observable : Outcome → Option (Float64 × Bool)
  | .ret value err => some (value, err.isNone)
  | .panic _ => none

/-- A response body whose single result has the value pair `[1700000000, 1.5]`. -/
def numberValueBody : String :=
  "\x7b\"status\":\"success\",\"data\":\x7b\"resultType\":\"vector\",\"result\":[\x7b\"metric\":\x7b\x7d,\"value\":[1700000000,1.5]\x7d]\x7d\x7d"

/-- A response body whose single result has the value pair `[1700000000, null]`. -/
def nullValueBody : String :=
  "\x7b\"status\":\"success\",\"data\":\x7b\"resultType\":\"vector\",\"result\":[\x7b\"metric\":\x7b\x7d,\"value\":[1700000000,null]\x7d]\x7d\x7d"

/-- A result entry with the three-element value pair `[1700000000, x, "extra"]`. -/
def entryWithThree (x : JSONValue) : promResultEntry :=
  { Value := [.number ⟨0x41D954FC40000000⟩, x, .string "extra"] }

/-! ## Basic facts -/

theorem contains_mid (pre sub post : String) : Contains (pre ++ sub ++ post) sub :=
  ⟨pre, post, rfl⟩

theorem contains_badVerb (pre post s : String) (verb : Char) :
    Contains (pre ++ badVerbString verb s ++ post) s := by
  refine ⟨pre ++ ("%!" ++ String.singleton verb ++ "(string="), ")" ++ post, ?_⟩
  simp [badVerbString, String.append_assoc]

theorem isInf_false_of_isFinite (f : Float64) (h : f.isFinite = true) : IsInf f 0 = false := by
  have hne : f.expField ≠ 2047 := by simpa [Float64.isFinite] using h
  simp [IsInf, Float64.isPosInf, Float64.isNegInf, hne]

theorem exec_of_exchange {env : Env} {a : VMAdapter} {query : String}
    {customHeaders : List (String × String)} {accountID : Int} {statusCode : Int}
    {body : String}
    (hx : exchange env a query customHeaders accountID = .ok (statusCode, body))
    (ignoreNullValues : Bool) (metricName : String) :
    ExecuteVictoriaQuery env a query customHeaders ignoreNullValues metricName accountID
      = processResponse env query ignoreNullValues metricName statusCode body := by
  simp [ExecuteVictoriaQuery, hx]

theorem exec_of_answers {env : Env} {a : VMAdapter} {query : String}
    {customHeaders : List (String × String)} {accountID : Int} {result : promQueryResult}
    (h : Answers2xx env a query customHeaders accountID result)
    (ignoreNullValues : Bool) (metricName : String) :
    ExecuteVictoriaQuery env a query customHeaders ignoreNullValues metricName accountID
      = extractValue env query ignoreNullValues metricName result := by
  obtain ⟨statusCode, body, hx, hlo, hhi, hdec⟩ := h
  rw [exec_of_exchange hx]
  simp [processResponse, hlo, hhi, hdec]

theorem sample_answers (status : Int) (body : String) (result : promQueryResult)
    (a : VMAdapter) (query : String) (customHeaders : List (String × String))
    (accountID : Int) (hlo : 200 ≤ status) (hhi : status ≤ 299) :
    Answers2xx (sampleEnv status body (.ok result)) a query customHeaders accountID result :=
  ⟨status, body, rfl, hlo, hhi, rfl⟩

/-! ## Result extraction -/

/-- C1: a 2xx response with exactly one result entry whose value pair is
`[ts, s]`, `s` a string that `ParseFloat` turns without error into a finite
`f`, makes the call return `(f, nil)`, whatever `ignoreNullValues` is. -/
theorem single_finite_value_returned (env : Env) (a : VMAdapter) (query : String)
    (customHeaders : List (String × String)) (ignoreNullValues : Bool) (metricName : String)
    (accountID : Int) (result : promQueryResult) (entry : promResultEntry)
    (ts : JSONValue) (s : String) (f : Float64)
    (hresp : Answers2xx env a query customHeaders accountID result)
    (hone : result.Data.Result = [entry])
    (hpair : entry.Value = [ts, .string s])
    (hparse : env.parseFloat s = (f, none))
    (hfin : f.isFinite = true) :
    (ExecuteVictoriaQuery env a query customHeaders ignoreNullValues metricName
      accountID).outcome = .ret f none := by
  rw [exec_of_answers hresp]
  simp [extractValue, hone, hpair, hparse, finish, isInf_false_of_isFinite f hfin]

/-- C1 at the response `[1700000000, "1.5"]`: both settings of the flag yield `1.5`. -/
theorem single_finite_value_returned_witness :
    (ExecuteVictoriaQuery (sampleEnv 200 "" (.ok (envelope [entryWith (.string "1.5")])))
        sampleAdapter "up" [] true "cpu" 7).outcome = .ret Float64.onePointFive none ∧
    (ExecuteVictoriaQuery (sampleEnv 200 "" (.ok (envelope [entryWith (.string "1.5")])))
        sampleAdapter "up" [] false "cpu" 7).outcome = .ret Float64.onePointFive none :=
  ⟨single_finite_value_returned _ sampleAdapter "up" [] true "cpu" 7 _ _ _ "1.5" _
      (sample_answers 200 "" _ _ _ _ _ (by decide) (by decide)) rfl rfl rfl (by decide),
   single_finite_value_returned _ sampleAdapter "up" [] false "cpu" 7 _ _ _ "1.5" _
      (sample_answers 200 "" _ _ _ _ _ (by decide) (by decide)) rfl rfl rfl (by decide)⟩

/-- C2: a 2xx response whose envelope has no result entry gives `(0, nil)`
under `ignoreNullValues = true` and `(-1, err)` otherwise, the text of `err`
containing `metricName`. -/
theorem empty_result_policy (env : Env) (a : VMAdapter) (query : String)
    (customHeaders : List (String × String)) (metricName : String)
    (accountID : Int) (result : promQueryResult)
    (hresp : Answers2xx env a query customHeaders accountID result)
    (hzero : result.Data.Result = []) :
    (ExecuteVictoriaQuery env a query customHeaders true metricName accountID).outcome
      = .ret Float64.zero none ∧
    ∃ err : GoError,
      (ExecuteVictoriaQuery env a query customHeaders false metricName accountID).outcome
        = .ret Float64.negOne (some err) ∧ Contains err.msg metricName := by
  rw [exec_of_answers hresp, exec_of_answers hresp]
  refine ⟨by simp [extractValue, hzero], _, by simp [extractValue, hzero]; rfl, ?_⟩
  exact contains_badVerb _ _ _ _

/-- C2 at an envelope with `"result": []` and metric name `cpu`. -/
theorem empty_result_policy_witness :
    (ExecuteVictoriaQuery (sampleEnv 200 "" (.ok (envelope []))) sampleAdapter "up" [] true
        "cpu" 7).outcome = .ret Float64.zero none ∧
    ∃ err : GoError,
      (ExecuteVictoriaQuery (sampleEnv 200 "" (.ok (envelope []))) sampleAdapter "up" [] false
        "cpu" 7).outcome = .ret Float64.negOne (some err) ∧ Contains err.msg "cpu" :=
  empty_result_policy _ sampleAdapter "up" [] "cpu" 7 _
    (sample_answers 200 "" _ _ _ _ _ (by decide) (by decide)) rfl

/-- C3: a 2xx response whose envelope has two or more result entries gives
`(-1, err)` with `err` non-nil, for both settings of `ignoreNullValues` and
whatever the entries hold. -/
theorem multiple_results_rejected (env : Env) (a : VMAdapter) (query : String)
    (customHeaders : List (String × String)) (ignoreNullValues : Bool) (metricName : String)
    (accountID : Int) (result : promQueryResult)
    (hresp : Answers2xx env a query customHeaders accountID result)
    (hmany : 2 ≤ result.Data.Result.length) :
    ∃ err : GoError,
      (ExecuteVictoriaQuery env a query customHeaders ignoreNullValues metricName
        accountID).outcome = .ret Float64.negOne (some err) := by
  rw [exec_of_answers hresp]
  match hres : result.Data.Result, hmany with
  | r0 :: r1 :: rs, _ => exact ⟨_, by simp [extractValue, hres]; rfl⟩

/-- C3 at an envelope with two entries, each a perfectly good sample. -/
theorem multiple_results_rejected_witness :
    ∃ err : GoError,
      (ExecuteVictoriaQuery
        (sampleEnv 200 "" (.ok (envelope [entryWith (.string "1.5"), entryWith (.string "0")])))
        sampleAdapter "up" [] true "cpu" 7).outcome = .ret Float64.negOne (some err) :=
  multiple_results_rejected _ sampleAdapter "up" [] true "cpu" 7 _
    (sample_answers 200 "" _ _ _ _ _ (by decide) (by decide)) (by decide)

/-- C4: for a 2xx response with exactly one result entry, an empty value pair
gives `(0, nil)` under `ignoreNullValues = true` and `(-1, err)` with `err`
mentioning `metricName` otherwise; a value pair of length 1 gives `(-1, err)`
with `err` non-nil for both settings of the flag. -/
theorem short_value_pair_policy (env : Env) (a : VMAdapter) (query : String)
    (customHeaders : List (String × String)) (metricName : String)
    (accountID : Int) (result : promQueryResult) (entry : promResultEntry)
    (hresp : Answers2xx env a query customHeaders accountID result)
    (hone : result.Data.Result = [entry]) :
    (entry.Value.length = 0 →
      (ExecuteVictoriaQuery env a query customHeaders true metricName accountID).outcome
        = .ret Float64.zero none ∧
      ∃ err : GoError,
        (ExecuteVictoriaQuery env a query customHeaders false metricName accountID).outcome
          = .ret Float64.negOne (some err) ∧ Contains err.msg metricName) ∧
    (entry.Value.length = 1 →
      ∀ ignoreNullValues : Bool, ∃ err : GoError,
        (ExecuteVictoriaQuery env a query customHeaders ignoreNullValues metricName
          accountID).outcome = .ret Float64.negOne (some err)) := by
  constructor
  · intro hlen
    have hnil : entry.Value = [] := List.length_eq_zero.mp hlen
    rw [exec_of_answers hresp, exec_of_answers hresp]
    refine ⟨by simp [extractValue, hone, hnil], _,
      by simp [extractValue, hone, hnil]; rfl, ?_⟩
    exact contains_badVerb _ _ _ _
  · intro hlen ignoreNullValues
    obtain ⟨x, hx⟩ := List.length_eq_one.mp hlen
    rw [exec_of_answers hresp]
    exact ⟨_, by simp [extractValue, hone, hx]; rfl⟩

/-- C4 at the value pairs `[]` and `[1700000000]`. -/
theorem short_value_pair_policy_witness :
    ((ExecuteVictoriaQuery (sampleEnv 200 "" (.ok (envelope [⟨(), []⟩]))) sampleAdapter "up" []
        true "cpu" 7).outcome = .ret Float64.zero none ∧
      ∃ err : GoError,
        (ExecuteVictoriaQuery (sampleEnv 200 "" (.ok (envelope [⟨(), []⟩]))) sampleAdapter "up"
          [] false "cpu" 7).outcome = .ret Float64.negOne (some err) ∧
        Contains err.msg "cpu") ∧
    (∀ ignoreNullValues : Bool, ∃ err : GoError,
        (ExecuteVictoriaQuery
          (sampleEnv 200 "" (.ok (envelope [⟨(), [.number ⟨0x41D954FC40000000⟩]⟩])))
          sampleAdapter "up" [] ignoreNullValues "cpu" 7).outcome
          = .ret Float64.negOne (some err)) :=
  ⟨(short_value_pair_policy _ sampleAdapter "up" [] "cpu" 7 _ ⟨(), []⟩
      (sample_answers 200 "" _ _ _ _ _ (by decide) (by decide)) rfl).1 rfl,
   (short_value_pair_policy _ sampleAdapter "up" [] "cpu" 7 _
      ⟨(), [.number ⟨0x41D954FC40000000⟩]⟩
      (sample_answers 200 "" _ _ _ _ _ (by decide) (by decide)) rfl).2 rfl⟩

/-- C5: for a 2xx response with exactly one result entry whose value string
(second element of the pair) parses without error to `+Inf` or `-Inf`, the
call returns `(0, nil)` under `ignoreNullValues = true` and `(-1, err)` with
`err` non-nil otherwise. -/
theorem infinite_value_policy (env : Env) (a : VMAdapter) (query : String)
    (customHeaders : List (String × String)) (metricName : String)
    (accountID : Int) (result : promQueryResult) (entry : promResultEntry)
    (ts : JSONValue) (s : String) (rest : List JSONValue) (f : Float64)
    (hresp : Answers2xx env a query customHeaders accountID result)
    (hone : result.Data.Result = [entry])
    (hpair : entry.Value = ts :: .string s :: rest)
    (hparse : env.parseFloat s = (f, none))
    (hinf : f.isPosInf = true ∨ f.isNegInf = true) :
    (ExecuteVictoriaQuery env a query customHeaders true metricName accountID).outcome
      = .ret Float64.zero none ∧
    ∃ err : GoError,
      (ExecuteVictoriaQuery env a query customHeaders false metricName accountID).outcome
        = .ret Float64.negOne (some err) := by
  have hi : IsInf f 0 = true := by
    rcases hinf with h | h <;> simp [IsInf, h]
  rw [exec_of_answers hresp, exec_of_answers hresp]
  exact ⟨by simp [extractValue, hone, hpair, hparse, finish, hi],
    _, by simp [extractValue, hone, hpair, hparse, finish, hi]; rfl⟩

/-- C5 at the value strings `"+Inf"` and `"-Inf"`. -/
theorem infinite_value_policy_witness :
    ((ExecuteVictoriaQuery (sampleEnv 200 "" (.ok (envelope [entryWith (.string "+Inf")])))
        sampleAdapter "up" [] true "cpu" 7).outcome = .ret Float64.zero none ∧
      ∃ err : GoError,
        (ExecuteVictoriaQuery (sampleEnv 200 "" (.ok (envelope [entryWith (.string "+Inf")])))
          sampleAdapter "up" [] false "cpu" 7).outcome = .ret Float64.negOne (some err)) ∧
    ((ExecuteVictoriaQuery (sampleEnv 200 "" (.ok (envelope [entryWith (.string "-Inf")])))
        sampleAdapter "up" [] true "cpu" 7).outcome = .ret Float64.zero none ∧
      ∃ err : GoError,
        (ExecuteVictoriaQuery (sampleEnv 200 "" (.ok (envelope [entryWith (.string "-Inf")])))
          sampleAdapter "up" [] false "cpu" 7).outcome = .ret Float64.negOne (some err)) :=
  ⟨infinite_value_policy _ sampleAdapter "up" [] "cpu" 7 _ _ _ "+Inf" [] Float64.posInf
      (sample_answers 200 "" _ _ _ _ _ (by decide) (by decide)) rfl rfl rfl
      (Or.inl (by decide)),
   infinite_value_policy _ sampleAdapter "up" [] "cpu" 7 _ _ _ "-Inf" [] Float64.negInf
      (sample_answers 200 "" _ _ _ _ _ (by decide) (by decide)) rfl rfl rfl
      (Or.inr (by decide))⟩

/-! ## Status check and the error sentinel -/

/-- C6: when the body was read and the status code lies outside `[200, 299]`,
the call returns `(-1, err)`, the text of `err` containing the decimal status
code and the raw body, for both settings of `ignoreNullValues`; the outcome
is the same whatever `json.Unmarshal` and `ParseFloat` would do with the
body, so the status check comes before any decoding. -/
theorem non_2xx_status_rejected (env : Env) (a : VMAdapter) (query : String)
    (customHeaders : List (String × String)) (ignoreNullValues : Bool) (metricName : String)
    (accountID : Int) (statusCode : Int) (body : String)
    (hx : exchange env a query customHeaders accountID = .ok (statusCode, body))
    (hstatus : statusCode < 200 ∨ 299 < statusCode) :
    ∃ err : GoError,
      (ExecuteVictoriaQuery env a query customHeaders ignoreNullValues metricName
        accountID).outcome = .ret Float64.negOne (some err) ∧
      Contains err.msg (sprintD statusCode) ∧ Contains err.msg body ∧
      ∀ (unmarshal : String → Except GoError promQueryResult)
        (parse : String → Float64 × Option GoError),
        (ExecuteVictoriaQuery { env with jsonUnmarshal := unmarshal, parseFloat := parse }
          a query customHeaders ignoreNullValues metricName accountID).outcome
          = .ret Float64.negOne (some err) := by
  have hcond : (decide (statusCode ≥ 200) && decide (statusCode ≤ 299)) = false := by
    rcases hstatus with h | h
    · have : ¬ statusCode ≥ 200 := by omega
      simp [this]
    · have : ¬ statusCode ≤ 299 := by omega
      simp [this]
  refine ⟨⟨"prometheus query api returned error. status: " ++ sprintD statusCode
      ++ " response: " ++ badVerbString 'a' body⟩, ?_, ?_, ?_, ?_⟩
  · rw [exec_of_exchange hx]
    simp [processResponse, hcond]
  · exact ⟨"prometheus query api returned error. status: ",
      " response: " ++ badVerbString 'a' body, by simp [String.append_assoc]⟩
  · exact ⟨"prometheus query api returned error. status: " ++ sprintD statusCode
      ++ " response: " ++ ("%!" ++ String.singleton 'a' ++ "(string="), ")",
      by simp [badVerbString, String.append_assoc]⟩
  · intro unmarshal parse
    have hx2 : exchange { env with jsonUnmarshal := unmarshal, parseFloat := parse } a query
        customHeaders accountID = .ok (statusCode, body) := hx
    rw [exec_of_exchange hx2]
    simp [processResponse, hcond]

/-- C6 at status 500 with a body that is a valid envelope. -/
theorem non_2xx_status_rejected_witness :
    ∃ err : GoError,
      (ExecuteVictoriaQuery
        (sampleEnv 500 "boom" (.ok (envelope [entryWith (.string "1.5")])))
        sampleAdapter "up" [] true "cpu" 7).outcome = .ret Float64.negOne (some err) ∧
      Contains err.msg (sprintD 500) ∧ Contains err.msg "boom" ∧
      ∀ (unmarshal : String → Except GoError promQueryResult)
        (parse : String → Float64 × Option GoError),
        (ExecuteVictoriaQuery
          { sampleEnv 500 "boom" (.ok (envelope [entryWith (.string "1.5")])) with
            jsonUnmarshal := unmarshal, parseFloat := parse }
          sampleAdapter "up" [] true "cpu" 7).outcome = .ret Float64.negOne (some err) :=
  non_2xx_status_rejected _ sampleAdapter "up" [] true "cpu" 7 500 "boom" rfl
    (Or.inr (by decide))

/-- Every error return of the extraction step carries the value `-1`. -/
theorem finish_error_sentinel (env : Env) (ignoreNullValues : Bool) (v w : Float64)
    (err : GoError) (h : (finish env ignoreNullValues v).outcome = .ret w (some err)) :
    w = Float64.negOne := by
  unfold finish at h
  split at h
  · split at h <;> simp at h
    exact h.1.symm
  · simp at h

/-- Every error return of the extraction step carries the value `-1`. -/
theorem extractValue_error_sentinel (env : Env) (query : String) (ignoreNullValues : Bool)
    (metricName : String) (result : promQueryResult) (w : Float64) (err : GoError)
    (h : (extractValue env query ignoreNullValues metricName result).outcome
      = .ret w (some err)) :
    w = Float64.negOne := by
  unfold extractValue at h
  split at h
  · split at h <;> simp at h
    exact h.1.symm
  · simp at h
    exact h.1.symm
  · split at h
    · split at h <;> simp at h
      exact h.1.symm
    · simp at h
      exact h.1.symm
    · split at h
      · exact finish_error_sentinel _ _ _ _ _ h
      · split at h
        · simp at h
          exact h.1.symm
        · exact finish_error_sentinel _ _ _ _ _ h
      · simp at h

/-- C7: whenever the call returns a non-nil error, on whichever path (request
construction, transport, body read, status, decoding, empty or multiple
results, short value pair, parse failure, infinite value), the returned
number is exactly `-1`. -/
theorem error_sentinel (env : Env) (a : VMAdapter) (query : String)
    (customHeaders : List (String × String)) (ignoreNullValues : Bool) (metricName : String)
    (accountID : Int) (w : Float64) (err : GoError)
    (h : (ExecuteVictoriaQuery env a query customHeaders ignoreNullValues metricName
      accountID).outcome = .ret w (some err)) :
    w = Float64.negOne := by
  unfold ExecuteVictoriaQuery at h
  split at h
  · simp at h
    exact h.1.symm
  · unfold processResponse at h
    split at h
    · simp at h
      exact h.1.symm
    · split at h
      · simp at h
        exact h.1.symm
      · exact extractValue_error_sentinel _ _ _ _ _ _ _ h

/-- C7 at a parse failure: the value string `"abc"` is rejected and the
number returned with the error is `-1`. -/
theorem error_sentinel_witness :
    (ExecuteVictoriaQuery (sampleEnv 200 "" (.ok (envelope [entryWith (.string "abc")])))
        sampleAdapter "up" [] true "cpu" 7).outcome
      = .ret Float64.negOne
          (some ⟨"strconv.ParseFloat: parsing \"abc\": invalid syntax"⟩) ∧
    Float64.negOne = Float64.negOne :=
  ⟨by decide, error_sentinel (sampleEnv 200 "" (.ok (envelope [entryWith (.string "abc")])))
      sampleAdapter "up" [] true "cpu" 7 Float64.negOne
      ⟨"strconv.ParseFloat: parsing \"abc\": invalid syntax"⟩ (by decide)⟩

/-! ## Value-or-error invariant -/

theorem isInf_zero : IsInf Float64.zero 0 = false := by decide

theorem isInf_negOne : IsInf Float64.negOne 0 = false := by decide

/-- The final step yields a number that is not an infinity, or an error with `-1`. -/
theorem finish_cases (env : Env) (ignoreNullValues : Bool) (v : Float64) :
    (∃ w, (finish env ignoreNullValues v).outcome = .ret w none ∧ IsInf w 0 = false) ∨
    (∃ err, (finish env ignoreNullValues v).outcome = .ret Float64.negOne (some err)) := by
  unfold finish
  by_cases hi : IsInf v 0 = true
  · cases ignoreNullValues
    · exact Or.inr ⟨_, by simp [hi]; rfl⟩
    · exact Or.inl ⟨Float64.zero, by simp [hi], isInf_zero⟩
  · exact Or.inl ⟨v, by simp [hi], by simpa using hi⟩

/-- With the flag off, the final step returns a nil error only with the number it was given. -/
theorem finish_strict_value (env : Env) (v w : Float64)
    (h : (finish env false v).outcome = .ret w none) : w = v := by
  unfold finish at h
  split at h
  · simp at h
  · simp at h
    exact h.symm

theorem extractValue_cases (env : Env) (query : String) (ignoreNullValues : Bool)
    (metricName : String) (r : promQueryResult) (hty : valueStringOrNull r = true) :
    (∃ w, (extractValue env query ignoreNullValues metricName r).outcome = .ret w none ∧
      IsInf w 0 = false) ∨
    (∃ err, (extractValue env query ignoreNullValues metricName r).outcome
      = .ret Float64.negOne (some err)) := by
  match hres : r.Data.Result with
  | [] =>
    cases ignoreNullValues
    · exact Or.inr ⟨_, by simp [extractValue, hres]; rfl⟩
    · exact Or.inl ⟨Float64.zero, by simp [extractValue, hres], isInf_zero⟩
  | _ :: _ :: _ => exact Or.inr ⟨_, by simp [extractValue, hres]; rfl⟩
  | [r0] =>
    match hval : r0.Value with
    | [] =>
      cases ignoreNullValues
      · exact Or.inr ⟨_, by simp [extractValue, hres, hval]; rfl⟩
      · exact Or.inl ⟨Float64.zero, by simp [extractValue, hres, hval], isInf_zero⟩
    | [_] => exact Or.inr ⟨_, by simp [extractValue, hres, hval]; rfl⟩
    | _ :: val :: _ =>
      have hval2 : val.isStringOrNull = true := by
        simpa [valueStringOrNull, hres, hval] using hty
      match val, hval2 with
      | .null, _ =>
        simpa [extractValue, hres, hval] using finish_cases env ignoreNullValues Float64.negOne
      | .string str, _ =>
        match hp : env.parseFloat str with
        | (_, some err) => exact Or.inr ⟨err, by simp [extractValue, hres, hval, hp]⟩
        | (v, none) =>
          simpa [extractValue, hres, hval, hp] using finish_cases env ignoreNullValues v

theorem extractValue_strict_value (env : Env) (query : String) (metricName : String)
    (r : promQueryResult) (v : Float64)
    (h : (extractValue env query false metricName r).outcome = .ret v none) :
    ∃ (entry : promResultEntry) (ts x : JSONValue) (rest : List JSONValue),
      r.Data.Result = [entry] ∧ entry.Value = ts :: x :: rest ∧
      (x = .null ∨ ∃ s : String, x = .string s ∧ env.parseFloat s = (v, none)) := by
  unfold extractValue at h
  match hres : r.Data.Result with
  | [] => simp [hres] at h
  | _ :: _ :: _ => simp [hres] at h
  | [r0] =>
    match hval : r0.Value with
    | [] => simp [hres, hval] at h
    | [_] => simp [hres, hval] at h
    | ts :: val :: rest =>
      refine ⟨r0, ts, val, rest, rfl, hval, ?_⟩
      match val with
      | .null => exact Or.inl rfl
      | .string str =>
        refine Or.inr ⟨str, rfl, ?_⟩
        match hp : env.parseFloat str with
        | (_, some err) => simp [hres, hval, hp] at h
        | (w, none) =>
          simp only [hres, hval, hp] at h
          rw [finish_strict_value env w v h]
      | .bool _ => simp [hres, hval] at h
      | .number _ => simp [hres, hval] at h
      | .array _ => simp [hres, hval] at h
      | .object _ => simp [hres, hval] at h

/-- The call either went through a decoded 2xx response or returned `-1` with an error. -/
theorem exec_answers_or_error (env : Env) (a : VMAdapter) (query : String)
    (customHeaders : List (String × String)) (accountID : Int) :
    (∃ r, Answers2xx env a query customHeaders accountID r) ∨
    (∃ err, ∀ (ignoreNullValues : Bool) (metricName : String),
      (ExecuteVictoriaQuery env a query customHeaders ignoreNullValues metricName
        accountID).outcome = .ret Float64.negOne (some err)) := by
  match hx : exchange env a query customHeaders accountID with
  | .error err =>
    exact Or.inr ⟨err, fun _ _ => by simp [ExecuteVictoriaQuery, hx]⟩
  | .ok (statusCode, body) =>
    by_cases h2 : 200 ≤ statusCode ∧ statusCode ≤ 299
    · match hdec : env.jsonUnmarshal body with
      | .error err =>
        refine Or.inr ⟨err, fun _ _ => ?_⟩
        rw [exec_of_exchange hx]
        simp [processResponse, h2.1, h2.2, hdec]
      | .ok r => exact Or.inl ⟨r, statusCode, body, hx, h2.1, h2.2, hdec⟩
    · refine Or.inr ⟨⟨"prometheus query api returned error. status: " ++ sprintD statusCode
        ++ " response: " ++ badVerbString 'a' body⟩, fun _ _ => ?_⟩
      rw [exec_of_exchange hx]
      have hcond : (decide (statusCode ≥ 200) && decide (statusCode ≤ 299)) = false := by
        by_cases hlo : 200 ≤ statusCode
        · have : ¬ statusCode ≤ 299 := fun hhi => h2 ⟨hlo, hhi⟩
          simp [this]
        · simp [hlo]
      simp [processResponse, hcond]

/-- C8, the claim refuted: the value string `"NaN"` makes the call return
`(NaN, nil)`, which is neither a finite number with a nil error nor an error;
and the value pair `[ts, null]` with `ignoreNullValues = false` makes it
return `(-1, nil)`, a number that was never read from the response. -/
theorem value_or_error_counterexample :
    ¬ ((∃ v : Float64,
          (ExecuteVictoriaQuery (sampleEnv 200 "" (.ok (envelope [entryWith (.string "NaN")])))
            sampleAdapter "up" [] false "cpu" 7).outcome = .ret v none ∧ v.isFinite = true) ∨
       (∃ (v : Float64) (err : GoError),
          (ExecuteVictoriaQuery (sampleEnv 200 "" (.ok (envelope [entryWith (.string "NaN")])))
            sampleAdapter "up" [] false "cpu" 7).outcome = .ret v (some err))) ∧
    (ExecuteVictoriaQuery (sampleEnv 200 "" (.ok (envelope [entryWith .null])))
      sampleAdapter "up" [] false "cpu" 7).outcome = .ret Float64.negOne none := by
  have hnan : (ExecuteVictoriaQuery
      (sampleEnv 200 "" (.ok (envelope [entryWith (.string "NaN")])))
      sampleAdapter "up" [] false "cpu" 7).outcome = .ret Float64.nan none := by decide
  refine ⟨?_, by decide⟩
  rw [hnan]
  rintro (⟨v, hv, hfin⟩ | ⟨v, err, hv⟩)
  · injection hv with hv1 _
    subst hv1
    exact absurd hfin (by decide)
  · injection hv with _ hv2
    exact Option.noConfusion hv2

/-- C8 as amended: when every second value element of the decoded envelope
is a string or null, the call returns exactly one of a number that is not an
infinity (it may be NaN) with a nil error, or a non-nil error (with `-1`);
and when `ignoreNullValues = false` and the error is nil, the response was a
decoded 2xx envelope with one entry whose second value element is null or a
string that `ParseFloat` turned, without error, into the returned number. -/
theorem value_or_error (env : Env) (a : VMAdapter) (query : String)
    (customHeaders : List (String × String)) (ignoreNullValues : Bool) (metricName : String)
    (accountID : Int)
    (htyped : ∀ r : promQueryResult, Answers2xx env a query customHeaders accountID r →
      valueStringOrNull r = true) :
    ((∃ v : Float64,
        (ExecuteVictoriaQuery env a query customHeaders ignoreNullValues metricName
          accountID).outcome = .ret v none ∧ IsInf v 0 = false) ∨
     (∃ err : GoError,
        (ExecuteVictoriaQuery env a query customHeaders ignoreNullValues metricName
          accountID).outcome = .ret Float64.negOne (some err))) ∧
    ¬ ((∃ v : Float64,
        (ExecuteVictoriaQuery env a query customHeaders ignoreNullValues metricName
          accountID).outcome = .ret v none ∧ IsInf v 0 = false) ∧
       (∃ err : GoError,
        (ExecuteVictoriaQuery env a query customHeaders ignoreNullValues metricName
          accountID).outcome = .ret Float64.negOne (some err))) ∧
    (ignoreNullValues = false → ∀ v : Float64,
      (ExecuteVictoriaQuery env a query customHeaders ignoreNullValues metricName
        accountID).outcome = .ret v none →
      ∃ (r : promQueryResult) (entry : promResultEntry) (ts x : JSONValue)
        (rest : List JSONValue),
        Answers2xx env a query customHeaders accountID r ∧
        r.Data.Result = [entry] ∧ entry.Value = ts :: x :: rest ∧
        (x = .null ∨ ∃ s : String, x = .string s ∧ env.parseFloat s = (v, none))) := by
  refine ⟨?_, ?_, ?_⟩
  · rcases exec_answers_or_error env a query customHeaders accountID with ⟨r, hr⟩ | ⟨err, herr⟩
    · rw [exec_of_answers hr]
      exact extractValue_cases env query ignoreNullValues metricName r (htyped r hr)
    · exact Or.inr ⟨err, herr _ _⟩
  · rintro ⟨⟨v, hv, _⟩, ⟨err, he⟩⟩
    rw [hv] at he
    injection he with _ he2
    exact Option.noConfusion he2
  · intro hflag v hv
    subst hflag
    rcases exec_answers_or_error env a query customHeaders accountID with ⟨r, hr⟩ | ⟨err, herr⟩
    · rw [exec_of_answers hr] at hv
      obtain ⟨entry, ts, x, rest, h1, h2, h3⟩ :=
        extractValue_strict_value env query metricName r v hv
      exact ⟨r, entry, ts, x, rest, hr, h1, h2, h3⟩
    · rw [herr] at hv
      injection hv with _ hv2
      exact Option.noConfusion hv2

/-- The sample backend only ever decodes to the envelope it was built with. -/
theorem sample_answers_inv {status : Int} {body : String} {result r : promQueryResult}
    {a : VMAdapter} {query : String} {customHeaders : List (String × String)}
    {accountID : Int}
    (h : Answers2xx (sampleEnv status body (.ok result)) a query customHeaders accountID r) :
    r = result := by
  obtain ⟨_, _, _, _, _, hdec⟩ := h
  simp only [sampleEnv] at hdec
  injection hdec with hdec
  exact hdec.symm

/-- C8 as amended, at the value string `"NaN"` with `ignoreNullValues = false`:
the call returns a number that is not an infinity with a nil error, and that
number is the one parsed from the value string. -/
theorem value_or_error_witness :
    ((∃ v : Float64,
        (ExecuteVictoriaQuery (sampleEnv 200 "" (.ok (envelope [entryWith (.string "NaN")])))
          sampleAdapter "up" [] false "cpu" 7).outcome = .ret v none ∧ IsInf v 0 = false) ∨
     (∃ err : GoError,
        (ExecuteVictoriaQuery (sampleEnv 200 "" (.ok (envelope [entryWith (.string "NaN")])))
          sampleAdapter "up" [] false "cpu" 7).outcome = .ret Float64.negOne (some err))) ∧
    (∃ (r : promQueryResult) (entry : promResultEntry) (ts x : JSONValue)
        (rest : List JSONValue),
        Answers2xx (sampleEnv 200 "" (.ok (envelope [entryWith (.string "NaN")])))
          sampleAdapter "up" [] 7 r ∧
        r.Data.Result = [entry] ∧ entry.Value = ts :: x :: rest ∧
        (x = .null ∨ ∃ s : String, x = .string s ∧
          (sampleEnv 200 "" (.ok (envelope [entryWith (.string "NaN")]))).parseFloat s
            = (Float64.nan, none))) :=
  have h := value_or_error (sampleEnv 200 "" (.ok (envelope [entryWith (.string "NaN")])))
    sampleAdapter "up" [] false "cpu" 7
    (fun r hr => by rw [sample_answers_inv hr]; decide)
  ⟨h.1, h.2.2 rfl Float64.nan (by decide)⟩

/-! ## Null-tolerance -/

/-- On a decoded envelope, the two settings of the flag part ways exactly in
the absence conditions. -/
theorem extractValue_flag_cases (env : Env) (query : String) (metricName : String)
    (r : promQueryResult) :
    (AbsentIn env r ∧
      (extractValue env query true metricName r).outcome = .ret Float64.zero none ∧
      ∃ err, (extractValue env query false metricName r).outcome
        = .ret Float64.negOne (some err)) ∨
    (¬ AbsentIn env r ∧
      (extractValue env query true metricName r).outcome
        = (extractValue env query false metricName r).outcome) := by
  match hres : r.Data.Result with
  | [] =>
    exact Or.inl ⟨Or.inl hres, by simp [extractValue, hres], _,
      by simp [extractValue, hres]; rfl⟩
  | r0 :: r1 :: rs =>
    refine Or.inr ⟨?_, by simp [extractValue, hres]⟩
    rintro (h | ⟨entry, h, _⟩) <;> simp [hres] at h
  | [r0] =>
    match hval : r0.Value with
    | [] =>
      exact Or.inl ⟨Or.inr ⟨r0, hres, Or.inl hval⟩, by simp [extractValue, hres, hval], _,
        by simp [extractValue, hres, hval]; rfl⟩
    | [x] =>
      refine Or.inr ⟨?_, by simp [extractValue, hres, hval]⟩
      rintro (h | ⟨entry, h, h2⟩)
      · simp [hres] at h
      · simp only [hres, List.cons.injEq, and_true] at h
        subst h
        rcases h2 with h2 | ⟨ts, s, rest, f, h2, _⟩ <;> simp [hval] at h2
    | ts :: val :: rest =>
      match val with
      | .null =>
        refine Or.inr ⟨?_, by simp [extractValue, hres, hval, finish, isInf_negOne]⟩
        rintro (h | ⟨entry, h, h2⟩)
        · simp [hres] at h
        · simp only [hres, List.cons.injEq, and_true] at h
          subst h
          rcases h2 with h2 | ⟨ts2, s, rest2, f, h2, _⟩ <;> simp [hval] at h2
      | .string str =>
        match hp : env.parseFloat str with
        | (w, some err) =>
          refine Or.inr ⟨?_, by simp [extractValue, hres, hval, hp]⟩
          rintro (h | ⟨entry, h, h2⟩)
          · simp [hres] at h
          · simp only [hres, List.cons.injEq, and_true] at h
            subst h
            rcases h2 with h2 | ⟨ts2, s, rest2, f, h2, h3, _⟩
            · simp [hval] at h2
            · simp only [hval, List.cons.injEq, JSONValue.string.injEq] at h2
              obtain ⟨_, h2, _⟩ := h2
              subst h2
              rw [hp] at h3
              simp at h3
        | (v, none) =>
          by_cases hi : IsInf v 0 = true
          · exact Or.inl ⟨Or.inr ⟨r0, hres, Or.inr ⟨ts, str, rest, v, hval, hp, hi⟩⟩,
              by simp [extractValue, hres, hval, hp, finish, hi], _,
              by simp [extractValue, hres, hval, hp, finish, hi]; rfl⟩
          · refine Or.inr ⟨?_, by simp [extractValue, hres, hval, hp, finish, hi]⟩
            rintro (h | ⟨entry, h, h2⟩)
            · simp [hres] at h
            · simp only [hres, List.cons.injEq, and_true] at h
              subst h
              rcases h2 with h2 | ⟨ts2, s, rest2, f, h2, h3, h4⟩
              · simp [hval] at h2
              · simp only [hval, List.cons.injEq, JSONValue.string.injEq] at h2
                obtain ⟨_, h2, _⟩ := h2
                subst h2
                rw [hp] at h3
                simp only [Prod.mk.injEq, and_true] at h3
                subst h3
                exact hi h4
      | .bool b =>
        refine Or.inr ⟨?_, by simp [extractValue, hres, hval]⟩
        rintro (h | ⟨entry, h, h2⟩)
        · simp [hres] at h
        · simp only [hres, List.cons.injEq, and_true] at h
          subst h
          rcases h2 with h2 | ⟨ts2, s, rest2, f, h2, _⟩ <;> simp [hval] at h2
      | .number n =>
        refine Or.inr ⟨?_, by simp [extractValue, hres, hval]⟩
        rintro (h | ⟨entry, h, h2⟩)
        · simp [hres] at h
        · simp only [hres, List.cons.injEq, and_true] at h
          subst h
          rcases h2 with h2 | ⟨ts2, s, rest2, f, h2, _⟩ <;> simp [hval] at h2
      | .array xs =>
        refine Or.inr ⟨?_, by simp [extractValue, hres, hval]⟩
        rintro (h | ⟨entry, h, h2⟩)
        · simp [hres] at h
        · simp only [hres, List.cons.injEq, and_true] at h
          subst h
          rcases h2 with h2 | ⟨ts2, s, rest2, f, h2, _⟩ <;> simp [hval] at h2
      | .object kvs =>
        refine Or.inr ⟨?_, by simp [extractValue, hres, hval]⟩
        rintro (h | ⟨entry, h, h2⟩)
        · simp [hres] at h
        · simp only [hres, List.cons.injEq, and_true] at h
          subst h
          rcases h2 with h2 | ⟨ts2, s, rest2, f, h2, _⟩ <;> simp [hval] at h2

/-- A call sees at most one decoded envelope. -/
theorem answers_unique {env : Env} {a : VMAdapter} {query : String}
    {customHeaders : List (String × String)} {accountID : Int} {r r2 : promQueryResult}
    (h : Answers2xx env a query customHeaders accountID r)
    (h2 : Answers2xx env a query customHeaders accountID r2) : r = r2 := by
  obtain ⟨sc, body, hx, _, _, hdec⟩ := h
  obtain ⟨sc2, body2, hx2, _, _, hdec2⟩ := h2
  rw [hx] at hx2
  injection hx2 with hx2
  injection hx2 with _ hb
  subst hb
  rw [hdec] at hdec2
  injection hdec2

/-- The two settings of the flag part ways exactly in the absence cases. -/
theorem exec_flag_cases (env : Env) (a : VMAdapter) (query : String)
    (customHeaders : List (String × String)) (metricName : String) (accountID : Int) :
    (AbsenceCase env a query customHeaders accountID ∧
      (ExecuteVictoriaQuery env a query customHeaders true metricName accountID).outcome
        = .ret Float64.zero none ∧
      ∃ err, (ExecuteVictoriaQuery env a query customHeaders false metricName
        accountID).outcome = .ret Float64.negOne (some err)) ∨
    (¬ AbsenceCase env a query customHeaders accountID ∧
      (ExecuteVictoriaQuery env a query customHeaders true metricName accountID).outcome
        = (ExecuteVictoriaQuery env a query customHeaders false metricName
            accountID).outcome) := by
  rcases exec_answers_or_error env a query customHeaders accountID with ⟨r, hr⟩ | ⟨err, herr⟩
  · rw [exec_of_answers hr, exec_of_answers hr]
    rcases extractValue_flag_cases env query metricName r with ⟨habs, h⟩ | ⟨hnabs, h⟩
    · exact Or.inl ⟨⟨r, hr, habs⟩, h⟩
    · refine Or.inr ⟨?_, h⟩
      rintro ⟨r2, hr2, habs⟩
      rw [answers_unique hr hr2] at hnabs
      exact hnabs habs
  · refine Or.inr ⟨?_, by rw [herr, herr]⟩
    rintro ⟨r, hr, habs⟩
    have h := herr true metricName
    rw [exec_of_answers hr] at h
    rcases extractValue_flag_cases env query metricName r with ⟨_, hT, _⟩ | ⟨hnabs, _⟩
    · rw [hT] at h
      injection h with _ h
      exact Option.noConfusion h
    · exact hnabs habs

/-- C9: the outcomes under `ignoreNullValues = true` and `= false` are the
same unless the response is a 2xx envelope with no result, or with one result
and an empty value pair, or with one result whose value string parses without
error to an infinity; in those cases the tolerant call returns `(0, nil)`
and the intolerant one `(-1, err)`.  So an error of the tolerant call is an
error of the intolerant call as well. -/
theorem null_tolerance_only_absence (env : Env) (a : VMAdapter) (query : String)
    (customHeaders : List (String × String)) (metricName : String) (accountID : Int) :
    (AbsenceCase env a query customHeaders accountID →
      (ExecuteVictoriaQuery env a query customHeaders true metricName accountID).outcome
        = .ret Float64.zero none ∧
      ∃ err : GoError,
        (ExecuteVictoriaQuery env a query customHeaders false metricName accountID).outcome
          = .ret Float64.negOne (some err)) ∧
    (¬ AbsenceCase env a query customHeaders accountID →
      (ExecuteVictoriaQuery env a query customHeaders true metricName accountID).outcome
        = (ExecuteVictoriaQuery env a query customHeaders false metricName
            accountID).outcome) ∧
    ((∃ (v : Float64) (err : GoError),
        (ExecuteVictoriaQuery env a query customHeaders true metricName accountID).outcome
          = .ret v (some err)) →
      ∃ (v : Float64) (err : GoError),
        (ExecuteVictoriaQuery env a query customHeaders false metricName accountID).outcome
          = .ret v (some err)) := by
  rcases exec_flag_cases env a query customHeaders metricName accountID with
    ⟨habs, hT, hF⟩ | ⟨hnabs, heq⟩
  · refine ⟨fun _ => ⟨hT, hF⟩, fun hn => absurd habs hn, ?_⟩
    rintro ⟨v, err, hv⟩
    rw [hT] at hv
    injection hv with _ hv
    exact Option.noConfusion hv
  · refine ⟨fun h => absurd h hnabs, fun _ => heq, ?_⟩
    rintro ⟨v, err, hv⟩
    exact ⟨v, err, heq ▸ hv⟩

/-- The value string `"1.5"` is no absence condition. -/
theorem sample_finite_not_absent :
    ¬ AbsenceCase (sampleEnv 200 "" (.ok (envelope [entryWith (.string "1.5")])))
      sampleAdapter "up" [] 7 := by
  rintro ⟨r, hr, habs⟩
  rw [sample_answers_inv hr] at habs
  rcases habs with h | ⟨entry, h, h2⟩
  · simp [envelope] at h
  · simp only [envelope, List.cons.injEq, and_true] at h
    subst h
    rcases h2 with h2 | ⟨ts, s, rest, f, h2, h3, h4⟩
    · simp [entryWith] at h2
    · simp only [entryWith, List.cons.injEq, JSONValue.string.injEq] at h2
      obtain ⟨_, h2, _⟩ := h2
      subst h2
      have hf : f = Float64.onePointFive := by
        have : sampleParseFloat "1.5" = (f, none) := h3
        have h5 : sampleParseFloat "1.5" = (Float64.onePointFive, none) := by decide
        rw [h5] at this
        injection this with this _
        exact this.symm
      subst hf
      exact absurd h4 (by decide)

/-- C9 at three responses: an empty result list (an absence case), the value
string `"1.5"` (no absence case: identical outcomes), and an entry with a
one-element value pair (an error under tolerance is an error without it). -/
theorem null_tolerance_only_absence_witness :
    ((ExecuteVictoriaQuery (sampleEnv 200 "" (.ok (envelope []))) sampleAdapter "up" [] true
        "cpu" 7).outcome = .ret Float64.zero none ∧
      ∃ err : GoError,
        (ExecuteVictoriaQuery (sampleEnv 200 "" (.ok (envelope []))) sampleAdapter "up" []
          false "cpu" 7).outcome = .ret Float64.negOne (some err)) ∧
    ((ExecuteVictoriaQuery (sampleEnv 200 "" (.ok (envelope [entryWith (.string "1.5")])))
        sampleAdapter "up" [] true "cpu" 7).outcome
      = (ExecuteVictoriaQuery (sampleEnv 200 "" (.ok (envelope [entryWith (.string "1.5")])))
        sampleAdapter "up" [] false "cpu" 7).outcome) ∧
    (∃ (v : Float64) (err : GoError),
        (ExecuteVictoriaQuery
          (sampleEnv 200 "" (.ok (envelope [⟨(), [.number ⟨0x41D954FC40000000⟩]⟩])))
          sampleAdapter "up" [] false "cpu" 7).outcome = .ret v (some err)) :=
  ⟨(null_tolerance_only_absence (sampleEnv 200 "" (.ok (envelope []))) sampleAdapter "up" []
      "cpu" 7).1
      ⟨envelope [], sample_answers 200 "" _ _ _ _ _ (by decide) (by decide), Or.inl rfl⟩,
   (null_tolerance_only_absence _ sampleAdapter "up" [] "cpu" 7).2.1 sample_finite_not_absent,
   (null_tolerance_only_absence
      (sampleEnv 200 "" (.ok (envelope [⟨(), [.number ⟨0x41D954FC40000000⟩]⟩])))
      sampleAdapter "up" [] "cpu" 7).2.2
      ⟨Float64.negOne, ⟨"prometheus query %!a(string=up) didn\x27t return enough values"⟩,
        by decide⟩⟩

/-! ## Request URL -/

/-- C10: the URL is `serverAddress ++ "/api/v1/query?query=" ++ QueryEscape
query ++ "&time=" ++ t` when `isPrometheus` holds, and `serverAddress ++
"/select/" ++ decimal accountID ++ "/prometheus/api/v1/query?query=" ++
QueryEscape query ++ "&time=" ++ t` otherwise; for `http://vm:8428` and query
`up` these are `http://vm:8428/api/v1/query?query=up&time=t` and, with
account 7, `http://vm:8428/select/7/prometheus/api/v1/query?query=up&time=t`.
It is this URL, with `t` the current timestamp, and the method `GET` that
the call hands to `http.NewRequestWithContext`. -/
theorem request_url_shape :
    (∀ (serverAddress query : String) (accountID : Int) (t : String),
      requestURL (NewVMStorageAdapter serverAddress true) query accountID t
        = serverAddress ++ "/api/v1/query?query=" ++ QueryEscape query ++ "&time=" ++ t) ∧
    (∀ (serverAddress query : String) (accountID : Int) (t : String),
      requestURL (NewVMStorageAdapter serverAddress false) query accountID t
        = serverAddress ++ "/select/" ++ sprintD accountID
            ++ "/prometheus/api/v1/query?query=" ++ QueryEscape query ++ "&time=" ++ t) ∧
    (∀ (accountID : Int) (t : String),
      requestURL (NewVMStorageAdapter "http://vm:8428" true) "up" accountID t
        = "http://vm:8428/api/v1/query?query=up&time=" ++ t) ∧
    (∀ t : String,
      requestURL (NewVMStorageAdapter "http://vm:8428" false) "up" 7 t
        = "http://vm:8428/select/7/prometheus/api/v1/query?query=up&time=" ++ t) ∧
    (∀ (env : Env) (a : VMAdapter) (query : String) (customHeaders : List (String × String))
      (ignoreNullValues : Bool) (metricName : String) (accountID : Int),
      (ExecuteVictoriaQuery
        { env with newRequestWithContext := fun method url => .error ⟨method ++ " " ++ url⟩ }
        a query customHeaders ignoreNullValues metricName accountID).outcome
        = .ret Float64.negOne (some ⟨"GET " ++ requestURL a query accountID env.now⟩)) := by
  have hq : QueryEscape "up" = "up" := by decide
  have h7 : sprintD 7 = "7" := by decide
  refine ⟨fun _ _ _ _ => rfl, fun _ _ _ _ => rfl, ?_, ?_, ?_⟩
  · intro accountID t
    simp only [requestURL, NewVMStorageAdapter, hq, ↓reduceIte]
    rw [show "http://vm:8428" ++ "/api/v1/query?query=" ++ "up" ++ "&time="
      = "http://vm:8428/api/v1/query?query=up&time=" from by decide]
  · intro t
    simp only [requestURL, NewVMStorageAdapter, hq, h7, Bool.false_eq_true, ↓reduceIte]
    rw [show "http://vm:8428" ++ "/select/" ++ "7" ++ "/prometheus/api/v1/query?query=" ++ "up"
        ++ "&time="
      = "http://vm:8428/select/7/prometheus/api/v1/query?query=up&time=" from by decide]
  · intro env a query customHeaders ignoreNullValues metricName accountID
    rfl

/-! ## Parse failures -/

/-- C11: for a 2xx response with exactly one result entry whose value string
(second element of the pair) is rejected by `ParseFloat`, the call returns
`(-1, err)` with `err` the parse error itself, for both settings of
`ignoreNullValues`; this holds whatever number comes with the error, an
infinity included. -/
theorem parse_failure_propagated (env : Env) (a : VMAdapter) (query : String)
    (customHeaders : List (String × String)) (ignoreNullValues : Bool) (metricName : String)
    (accountID : Int) (result : promQueryResult) (entry : promResultEntry)
    (ts : JSONValue) (s : String) (rest : List JSONValue) (v : Float64) (err : GoError)
    (hresp : Answers2xx env a query customHeaders accountID result)
    (hone : result.Data.Result = [entry])
    (hpair : entry.Value = ts :: .string s :: rest)
    (hparse : env.parseFloat s = (v, some err)) :
    (ExecuteVictoriaQuery env a query customHeaders ignoreNullValues metricName
      accountID).outcome = .ret Float64.negOne (some err) := by
  rw [exec_of_answers hresp]
  simp [extractValue, hone, hpair, hparse]

/-- C11 at the value strings `"abc"` (no number) and `"1e999"` (out of range,
`+Inf` with a range error), the latter under null-tolerance. -/
theorem parse_failure_propagated_witness :
    (ExecuteVictoriaQuery (sampleEnv 200 "" (.ok (envelope [entryWith (.string "abc")])))
        sampleAdapter "up" [] false "cpu" 7).outcome
      = .ret Float64.negOne (some ⟨"strconv.ParseFloat: parsing \"abc\": invalid syntax"⟩) ∧
    (ExecuteVictoriaQuery (sampleEnv 200 "" (.ok (envelope [entryWith (.string "1e999")])))
        sampleAdapter "up" [] true "cpu" 7).outcome
      = .ret Float64.negOne
          (some ⟨"strconv.ParseFloat: parsing \"1e999\": value out of range"⟩) :=
  ⟨parse_failure_propagated _ sampleAdapter "up" [] false "cpu" 7 _ _ _ "abc" [] Float64.zero _
      (sample_answers 200 "" _ _ _ _ _ (by decide) (by decide)) rfl rfl (by decide),
   parse_failure_propagated _ sampleAdapter "up" [] true "cpu" 7 _ _ _ "1e999" []
      Float64.posInf _
      (sample_answers 200 "" _ _ _ _ _ (by decide) (by decide)) rfl rfl (by decide)⟩

/-- C12, the code at the value pair `[1700000000, 1.5]`: the assertion
`val.(string)` fails and the call panics, for both settings of
`ignoreNullValues`; it does not return `(-1, err)`. -/
theorem number_value_panics :
    (∀ ignoreNullValues : Bool,
      (ExecuteVictoriaQuery
        (sampleEnv 200 numberValueBody
          (.ok (envelope [entryWith (.number Float64.onePointFive)])))
        sampleAdapter "up" [] ignoreNullValues "cpu" 7).outcome
        = .panic "interface conversion: interface \x7b\x7d is float64, not string") ∧
    ¬ ∃ (v : Float64) (err : Option GoError),
      (ExecuteVictoriaQuery
        (sampleEnv 200 numberValueBody
          (.ok (envelope [entryWith (.number Float64.onePointFive)])))
        sampleAdapter "up" [] false "cpu" 7).outcome = .ret v err := by
  have h : ∀ ignoreNullValues : Bool,
      (ExecuteVictoriaQuery
        (sampleEnv 200 numberValueBody
          (.ok (envelope [entryWith (.number Float64.onePointFive)])))
        sampleAdapter "up" [] ignoreNullValues "cpu" 7).outcome
        = .panic "interface conversion: interface \x7b\x7d is float64, not string" := by
    intro ignoreNullValues
    cases ignoreNullValues <;> decide
  refine ⟨h, ?_⟩
  rintro ⟨v, err, hv⟩
  rw [h false] at hv
  exact Outcome.noConfusion hv

/-! ## Length of the value pair -/

/-- C13, the claim refuted: a value pair of length 3, `[1700000000, "1.5",
"extra"]`, is accepted; the call returns `(1.5, nil)` and no error. -/
theorem long_value_pair_counterexample :
    (entryWithThree (.string "1.5")).Value.length = 3 ∧
    (ExecuteVictoriaQuery
      (sampleEnv 200 "" (.ok (envelope [entryWithThree (.string "1.5")])))
      sampleAdapter "up" [] false "cpu" 7).outcome = .ret Float64.onePointFive none ∧
    ¬ ∃ (v : Float64) (err : GoError),
      (ExecuteVictoriaQuery
        (sampleEnv 200 "" (.ok (envelope [entryWithThree (.string "1.5")])))
        sampleAdapter "up" [] false "cpu" 7).outcome = .ret v (some err) := by
  have h : (ExecuteVictoriaQuery
      (sampleEnv 200 "" (.ok (envelope [entryWithThree (.string "1.5")])))
      sampleAdapter "up" [] false "cpu" 7).outcome = .ret Float64.onePointFive none := by
    decide
  refine ⟨rfl, h, ?_⟩
  rintro ⟨v, err, hv⟩
  rw [h] at hv
  injection hv with _ hv
  exact Option.noConfusion hv

/-- C13 as amended: the value pair must have at least 2 elements.  For a 2xx
response with exactly one result entry, a pair of length 0 gives `(0, nil)`
under null-tolerance and an error otherwise, a pair of length 1 gives an
error; so with fewer than 2 elements a nil error occurs solely as `(0, nil)`
in the length-0 null-tolerant case.  With 2 or more elements the second one
is read whatever follows it: a string parsed without error to a number that
is not an infinity is returned with a nil error. -/
theorem value_pair_length_policy (env : Env) (a : VMAdapter) (query : String)
    (customHeaders : List (String × String)) (metricName : String)
    (accountID : Int) (result : promQueryResult) (entry : promResultEntry)
    (hresp : Answers2xx env a query customHeaders accountID result)
    (hone : result.Data.Result = [entry]) :
    (entry.Value.length = 0 →
      (ExecuteVictoriaQuery env a query customHeaders true metricName accountID).outcome
        = .ret Float64.zero none ∧
      ∃ err : GoError,
        (ExecuteVictoriaQuery env a query customHeaders false metricName accountID).outcome
          = .ret Float64.negOne (some err)) ∧
    (entry.Value.length = 1 →
      ∀ ignoreNullValues : Bool, ∃ err : GoError,
        (ExecuteVictoriaQuery env a query customHeaders ignoreNullValues metricName
          accountID).outcome = .ret Float64.negOne (some err)) ∧
    (entry.Value.length < 2 →
      ∀ (ignoreNullValues : Bool) (v : Float64),
        (ExecuteVictoriaQuery env a query customHeaders ignoreNullValues metricName
          accountID).outcome = .ret v none →
        ignoreNullValues = true ∧ entry.Value.length = 0 ∧ v = Float64.zero) ∧
    (∀ (ts : JSONValue) (s : String) (rest : List JSONValue) (f : Float64)
      (ignoreNullValues : Bool),
      entry.Value = ts :: .string s :: rest → env.parseFloat s = (f, none) →
      IsInf f 0 = false →
      (ExecuteVictoriaQuery env a query customHeaders ignoreNullValues metricName
        accountID).outcome = .ret f none) := by
  refine ⟨?_, ?_, ?_, ?_⟩
  · intro hlen
    have hnil : entry.Value = [] := List.length_eq_zero.mp hlen
    rw [exec_of_answers hresp, exec_of_answers hresp]
    exact ⟨by simp [extractValue, hone, hnil], _, by simp [extractValue, hone, hnil]; rfl⟩
  · intro hlen ignoreNullValues
    obtain ⟨x, hx⟩ := List.length_eq_one.mp hlen
    rw [exec_of_answers hresp]
    exact ⟨_, by simp [extractValue, hone, hx]; rfl⟩
  · intro hlen ignoreNullValues v hv
    rw [exec_of_answers hresp] at hv
    match hval : entry.Value with
    | [] =>
      cases ignoreNullValues
      · simp [extractValue, hone, hval] at hv
      · simp [extractValue, hone, hval] at hv
        exact ⟨rfl, rfl, hv.symm⟩
    | [x] => simp [extractValue, hone, hval] at hv
    | _ :: _ :: _ =>
      simp only [hval, List.length_cons] at hlen
      omega
  · intro ts s rest f ignoreNullValues hpair hparse hinf
    rw [exec_of_answers hresp]
    simp [extractValue, hone, hpair, hparse, finish, hinf]

/-- C13 as amended, at the pairs `[]`, `[1700000000]` and `[1700000000, "1.5", "extra"]`. -/
theorem value_pair_length_policy_witness :
    ((ExecuteVictoriaQuery (sampleEnv 200 "" (.ok (envelope [⟨(), []⟩]))) sampleAdapter "up" []
        true "cpu" 7).outcome = .ret Float64.zero none ∧
      ∃ err : GoError,
        (ExecuteVictoriaQuery (sampleEnv 200 "" (.ok (envelope [⟨(), []⟩]))) sampleAdapter "up"
          [] false "cpu" 7).outcome = .ret Float64.negOne (some err)) ∧
    (∀ ignoreNullValues : Bool, ∃ err : GoError,
        (ExecuteVictoriaQuery
          (sampleEnv 200 "" (.ok (envelope [⟨(), [.number ⟨0x41D954FC40000000⟩]⟩])))
          sampleAdapter "up" [] ignoreNullValues "cpu" 7).outcome
          = .ret Float64.negOne (some err)) ∧
    (true = true ∧ (⟨(), []⟩ : promResultEntry).Value.length = 0 ∧
      Float64.zero = Float64.zero) ∧
    (ExecuteVictoriaQuery
      (sampleEnv 200 "" (.ok (envelope [entryWithThree (.string "1.5")])))
      sampleAdapter "up" [] true "cpu" 7).outcome = .ret Float64.onePointFive none :=
  ⟨(value_pair_length_policy _ sampleAdapter "up" [] "cpu" 7 _ ⟨(), []⟩
      (sample_answers 200 "" _ _ _ _ _ (by decide) (by decide)) rfl).1 rfl,
   (value_pair_length_policy _ sampleAdapter "up" [] "cpu" 7 _
      ⟨(), [.number ⟨0x41D954FC40000000⟩]⟩
      (sample_answers 200 "" _ _ _ _ _ (by decide) (by decide)) rfl).2.1 rfl,
   (value_pair_length_policy (sampleEnv 200 "" (.ok (envelope [⟨(), []⟩]))) sampleAdapter "up"
      [] "cpu" 7 _ ⟨(), []⟩
      (sample_answers 200 "" _ _ _ _ _ (by decide) (by decide)) rfl).2.2.1 (by decide)
      true Float64.zero (by decide),
   (value_pair_length_policy _ sampleAdapter "up" [] "cpu" 7 _
      (entryWithThree (.string "1.5"))
      (sample_answers 200 "" _ _ _ _ _ (by decide) (by decide)) rfl).2.2.2
      _ "1.5" _ Float64.onePointFive true rfl rfl (by decide)⟩

/-! ## A null value under null-tolerance -/

/-- C14, the code at the value pair `[1700000000, null]` with
`ignoreNullValues = true`: the call returns `(-1, nil)`, the initial value of
`v`, and not `(0, nil)`. -/
theorem null_value_tolerant_returns_minus_one :
    (ExecuteVictoriaQuery (sampleEnv 200 nullValueBody (.ok (envelope [entryWith .null])))
      sampleAdapter "up" [] true "cpu" 7).outcome = .ret Float64.negOne none ∧
    (ExecuteVictoriaQuery (sampleEnv 200 nullValueBody (.ok (envelope [entryWith .null])))
      sampleAdapter "up" [] true "cpu" 7).outcome ≠ .ret Float64.zero none := by
  have h : (ExecuteVictoriaQuery
      (sampleEnv 200 nullValueBody (.ok (envelope [entryWith .null])))
      sampleAdapter "up" [] true "cpu" 7).outcome = .ret Float64.negOne none := by decide
  refine ⟨h, ?_⟩
  rw [h]
  decide

/-! ## Independence of the request arguments -/

/-- The number returned and the nil-ness of the error do not depend on the
query or the metric name once the envelope is decoded. -/
theorem extractValue_observable (env : Env) (query query2 : String) (ignoreNullValues : Bool)
    (metricName metricName2 : String) (r : promQueryResult) :
    (extractValue env query ignoreNullValues metricName r).outcome.observable
      = (extractValue env query2 ignoreNullValues metricName2 r).outcome.observable := by
  match hres : r.Data.Result with
  | [] => cases ignoreNullValues <;> simp [extractValue, hres, Outcome.observable]
  | _ :: _ :: _ => simp [extractValue, hres, Outcome.observable]
  | [r0] =>
    match hval : r0.Value with
    | [] => cases ignoreNullValues <;> simp [extractValue, hres, hval, Outcome.observable]
    | [_] => simp [extractValue, hres, hval, Outcome.observable]
    | _ :: val :: _ =>
      cases val <;> simp [extractValue, hres, hval, Outcome.observable]

/-- The number returned and the nil-ness of the error do not depend on the
query or the metric name once the response is read. -/
theorem processResponse_observable (env : Env) (query query2 : String)
    (ignoreNullValues : Bool) (metricName metricName2 : String) (statusCode : Int)
    (body : String) :
    (processResponse env query ignoreNullValues metricName statusCode body).outcome.observable
      = (processResponse env query2 ignoreNullValues metricName2 statusCode
          body).outcome.observable := by
  unfold processResponse
  split
  · simp [Outcome.observable]
  · split
    · rfl
    · exact extractValue_observable _ _ _ _ _ _ _

/-- C15: two calls that receive the same response (status code and body) and
use the same `ignoreNullValues` return the same number and agree on whether
the error is nil (and a panic of one is a panic of the other), whatever
their query strings, metric names, account IDs and custom headers. -/
theorem outcome_independent_of_request_args (env : Env) (a : VMAdapter)
    (query query2 : String) (customHeaders customHeaders2 : List (String × String))
    (ignoreNullValues : Bool) (metricName metricName2 : String) (accountID accountID2 : Int)
    (statusCode : Int) (body : String)
    (hx : exchange env a query customHeaders accountID = .ok (statusCode, body))
    (hx2 : exchange env a query2 customHeaders2 accountID2 = .ok (statusCode, body)) :
    (ExecuteVictoriaQuery env a query customHeaders ignoreNullValues metricName
      accountID).outcome.observable
      = (ExecuteVictoriaQuery env a query2 customHeaders2 ignoreNullValues metricName2
          accountID2).outcome.observable := by
  rw [exec_of_exchange hx, exec_of_exchange hx2]
  exact processResponse_observable _ _ _ _ _ _ _ _

/-- C15 at an empty result list without null-tolerance: the two error texts
differ (they quote the metric name) while number and nil-ness agree. -/
theorem outcome_independent_of_request_args_witness :
    (ExecuteVictoriaQuery (sampleEnv 200 "" (.ok (envelope []))) sampleAdapter "up" [] false
        "cpu" 7).outcome.observable
      = (ExecuteVictoriaQuery (sampleEnv 200 "" (.ok (envelope []))) sampleAdapter
          "rate(http_requests_total[5m])" [("X-Scope", "team-a")] false "memory"
          42).outcome.observable ∧
    (ExecuteVictoriaQuery (sampleEnv 200 "" (.ok (envelope []))) sampleAdapter "up" [] false
        "cpu" 7).outcome
      ≠ (ExecuteVictoriaQuery (sampleEnv 200 "" (.ok (envelope []))) sampleAdapter
          "rate(http_requests_total[5m])" [("X-Scope", "team-a")] false "memory"
          42).outcome :=
  ⟨outcome_independent_of_request_args _ sampleAdapter "up" "rate(http_requests_total[5m])"
      [] [("X-Scope", "team-a")] false "cpu" "memory" 7 42 200 "" rfl rfl,
   by decide⟩

end VMScaler
